import Mathlib

/-!
# Audacious: signal handling (`src/audacious/signals.c`) and the queued-callback
handle (`src/libaudcore/mainloop.h`)

A shallow embedding of the signal layer.  Every call the C code makes to a
collaborator outside the file (glib printing, `sigwait`, `sigaction`,
`pthread_sigmask`, `g_thread_create`, `bmp_config_save`, `mainwin_quit_cb`,
`abort`) is recorded, in program order, as an `Effect` in the trace `Proc.out`.
Values that only the platform can supply (what `sigwait` returns, whether
`sigaction` succeeds, the captured backtrace, the `confstr` answer) are inputs,
collected in `Env` or passed as arguments.  Every collaborator call returns to
its caller, except `abort`.  The translation wrapper `_( )` around two
messages is the identity.  A signal handler and a pass of the polling loop
each run as one step.
-/

namespace Audacious

/-! ## Signal numbers and signal sets -/

/-- `SIGINT` of `<signal.h>`. -/
def SIGINT : Int := 2

/-- `SIGSEGV` of `<signal.h>`. -/
def SIGSEGV : Int := 11

/-- `SIGPIPE` of `<signal.h>`. -/
def SIGPIPE : Int := 13

/-- `SIGTERM` of `<signal.h>`. -/
def SIGTERM : Int := 15

/-- The C type `sigset_t`, as the finite set of signal numbers put into it. -/
abbrev sigset_t := Finset Int

/-- `sigemptyset`. -/
def sigemptyset : sigset_t := ∅

/-- `SIGKILL` of `<signal.h>`. -/
def SIGKILL : Int := 9

/-- `SIGSTOP` of `<signal.h>` (Linux). -/
def SIGSTOP : Int := 19

/-- `_NSIG` of `<signal.h>` (Linux): the signals are numbered `1` to `64`. -/
def NSIG : Int := 65

/-- The numbers `sigaddset` accepts: the signals `1` to `NSIG - 1`, without
the two the C library keeps for itself (`32` and `33`). -/
def isSignalNumber (signo : Int) : Bool :=
  decide (1 ≤ signo) && decide (signo < NSIG) && !(decide (signo = 32) || decide (signo = 33))

/-- The signals a process can block or catch: every signal number except
`SIGKILL` and `SIGSTOP`. -/
def isBlockable (signo : Int) : Bool :=
  isSignalNumber signo && !(decide (signo = SIGKILL) || decide (signo = SIGSTOP))

/-- `sigaddset (&set, signo)`: adds a signal number to the set; for any other
number it fails with `EINVAL` and leaves the set as it was (the C code does
not look at the return value). -/
def sigaddset (set : sigset_t) (signo : Int) : sigset_t :=
  if isSignalNumber signo then insert signo set else set

/-- The Signal Interest Set of the specification (section 3). -/
def interestSet : sigset_t := {SIGPIPE, SIGSEGV, SIGINT, SIGTERM}

/-! ## Collaborators -/

/-- One argument of a printf-style call. -/
inductive Arg where
  | int (n : Int)
  | str (s : String)
deriving DecidableEq, Repr

/-- The two thread entry points of `signals.c`. -/
inductive ThreadFunc where
  | signal_process_signals
  | signal_process_signals_linuxthread
deriving DecidableEq, Repr

/-- Values of the C type `SignalHandler`: the function pointers a disposition can hold. -/
inductive SignalHandler where
  | SIG_DFL
  | SIG_IGN
  | linuxthread_handler
  | other (addr : Nat)
deriving DecidableEq, Repr

/-- Flags of `struct sigaction` that change what a delivery does. -/
inductive SaFlag where
  | SA_RESTART
  | SA_NODEFER
  | SA_RESETHAND
deriving DecidableEq, Repr

/-- The fields of `struct sigaction` that `signal_install_handler_full` fills in. -/
structure Sigaction where
  sa_handler : SignalHandler
  sa_flags : List SaFlag
  sa_mask : sigset_t
deriving DecidableEq

/-- A call to a collaborator outside `signals.c`, with the values passed and
(for `sigwait`, `pthread_sigmask`, `sigaction`) the value that came back. -/
inductive Effect where
  | g_printerr (format : String) (args : List Arg)
  | g_print (text : String)
  | g_critical (text : String)
  | g_message (format : String) (args : List Arg)
  | bmp_config_save
  | abort
  | mainwin_quit_cb
  | sigwait (waitset : sigset_t) (sig : Int)
  | g_usleep (microseconds : Nat)
  | pthread_sigmask_SIG_BLOCK (set : sigset_t) (rc : Int)
  | sigaction (signo : Int) (action : Sigaction) (ok : Bool)
  | g_thread_create (func : ThreadFunc)
deriving DecidableEq

/-- What the platform and the build supply. -/
structure Env where
  /-- The macro `VERSION` of `config.h`. -/
  VERSION : String
  /-- The variable `svn_stamp` of `build_stamp.h`. -/
  svn_stamp : String
  /-- Whether `HAVE_EXECINFO_H` is defined. -/
  HAVE_EXECINFO_H : Bool
  /-- The symbolic frames of the stack at the point of the fault, innermost first. -/
  frames : List String
  /-- The answer of `confstr (_CS_GNU_LIBPTHREAD_VERSION, ...)`; `none` when the macro is not defined. -/
  libpthread_version : Option String
  /-- The return value of `pthread_sigmask`; `0` is success. -/
  pthread_sigmask_rc : Int
  /-- The outcome of `sigaction` for a signal that can be caught: `none` when
  it returns `-1`, `some old` when it succeeds and the previous handler was
  `old`. -/
  sigaction_rc : Int → Option SignalHandler

/-- The state of the process that the signal layer reads or writes. -/
structure Proc where
  /-- The global `linuxthread_signal_number` (the Pending Signal Slot). -/
  linuxthread_signal_number : Int
  /-- The signal mask of the thread that runs `signal_handlers_init`. -/
  blocked : sigset_t
  /-- The dispositions installed so far, the latest first. -/
  actions : List (Int × Sigaction)
  /-- The threads created so far, each with the signal mask it inherited. -/
  threads : List (ThreadFunc × sigset_t)
  /-- The trace of collaborator calls, in program order. -/
  out : List Effect
  /-- Whether `abort ()` has been called. -/
  aborted : Bool
  /-- Instrumentation: the `case` labels of the dispatching `switch` that were
  entered, in order. -/
  dispatched : List Int

/-- The process at start-up: `linuxthread_signal_number = 0`, nothing blocked,
nothing installed, no thread created. -/
def Proc.initial : Proc :=
  { linuxthread_signal_number := 0, blocked := ∅, actions := [], threads := [],
    out := [], aborted := false, dispatched := [] }

/-- Appends one collaborator call to the trace. -/
def emit (e : Effect) (p : Proc) : Proc := { p with out := p.out ++ [e] }

/-- Records that a `case` of the dispatching `switch` was entered. -/
def enterCase (label : Int) (p : Proc) : Proc := { p with dispatched := p.dispatched ++ [label] }

/-- The part of the trace that a step added. -/
def delta (before after : Proc) : List Effect := after.out.drop before.out.length

/-! ## `signal_process_segv` -/

/-- The first message of `signal_process_segv`. -/
def segv_apology : String :=
  "\nAudacious has caught signal 11 (SIGSEGV).\n\n" ++
  "We apologize for the inconvenience, but Audacious has crashed.\n" ++
  "This is a bug in the program, and should never happen under normal circumstances.\n" ++
  "Your current configuration has been saved and should not be damaged.\n\n" ++
  "You can help improve the quality of Audacious by filing a bug at http://bugs-meta.atheme.org\n" ++
  "Please include the entire text of this message and a description of what you were doing when\n" ++
  "this crash occured in order to quickly expedite the handling of your bug report:\n\n"

/-- The version line of `signal_process_segv`. -/
def segv_version (env : Env) : Effect :=
  .g_printerr "Program version: Audacious %s (buildid: %s)\n\n" [.str env.VERSION, .str env.svn_stamp]

/-- The last message of `signal_process_segv`. -/
def segv_pointer : String :=
  "\nBugs can be reported at http://bugs-meta.atheme.org against the Audacious product.\n"

/-- The frames that `backtrace (stack, 20)` and `backtrace_symbols` hand back:
at most twenty, innermost first. -/
def backtrace (env : Env) : List String := env.frames.take 20

/-- The stack section of `signal_process_segv`: under `HAVE_EXECINFO_H` the
header with the frame count and one numbered line per frame, otherwise the
line that says no stacktrace was available. -/
def segv_stack (env : Env) : List Effect :=
  if env.HAVE_EXECINFO_H then
    let strings := backtrace env
    .g_printerr "Stacktrace (%zd frames):\n" [.int strings.length] ::
      strings.enum.map (fun f => .g_printerr "   %ld. %s\n" [.int ((f.1 : Int) + 1), .str f.2])
  else
    [.g_printerr "Stacktrace was unavailable.\n" []]

/-- `signal_process_segv`: the crash report, the critical log entry, the
configuration save, `abort ()`. -/
def signal_process_segv (env : Env) (p : Proc) : Proc :=
  let p := emit (.g_printerr segv_apology []) p
  let p := emit (segv_version env) p
  let p := { p with out := p.out ++ segv_stack env }
  let p := emit (.g_printerr segv_pointer []) p
  let p := emit (.g_critical "Received SIGSEGV -- Audacious has crashed.") p
  let p := emit .bmp_config_save p
  let p := emit .abort p
  { p with aborted := true }

/-! ## `signal_process_signals` (ThreadWait mode) -/

/-- The set `waitset` that `signal_process_signals` builds before its loop. -/
def signal_process_signals_waitset : sigset_t :=
  sigaddset (sigaddset (sigaddset (sigaddset sigemptyset SIGPIPE) SIGSEGV) SIGINT) SIGTERM

/-- One pass through the body of the `while (1)` of `signal_process_signals`,
where `sigwait` stores `sig`. -/
def signal_process_signals_iter (env : Env) (sig : Int) (p : Proc) : Proc :=
  let p := emit (.sigwait signal_process_signals_waitset sig) p
  if sig = SIGPIPE then
    enterCase SIGPIPE p
  else if sig = SIGSEGV then
    signal_process_segv env (enterCase SIGSEGV p)
  else if sig = SIGINT then
    let p := enterCase SIGINT p
    let p := emit (.g_print "Audacious has received SIGINT and is shutting down.\n") p
    emit .mainwin_quit_cb p
  else if sig = SIGTERM then
    let p := enterCase SIGTERM p
    let p := emit (.g_print "Audacious has received SIGTERM and is shutting down.\n") p
    emit .mainwin_quit_cb p
  else
    p

/-- The loop of `signal_process_signals`, run for as long as `sigwait` returns
the signals of `sigs`; after `abort ()` nothing more runs. -/
def signal_process_signals (env : Env) : List Int → Proc → Proc
  | [], p => p
  | sig :: rest, p =>
    if p.aborted then p
    else signal_process_signals env rest (signal_process_signals_iter env sig p)

/-! ## `signal_process_signals_linuxthread` and `linuxthread_handler` (HandlerPoll mode) -/

/-- `linuxthread_handler`. -/
def linuxthread_handler (signal_number : Int) (p : Proc) : Proc :=
  { p with linuxthread_signal_number := signal_number }

/-- One pass through the body of the `while (1)` of
`signal_process_signals_linuxthread`. -/
def signal_process_signals_linuxthread_iter (env : Env) (p : Proc) : Proc :=
  let p := emit (.g_usleep 1000000) p
  if p.linuxthread_signal_number = SIGPIPE then
    { enterCase SIGPIPE p with linuxthread_signal_number := 0 }
  else if p.linuxthread_signal_number = SIGSEGV then
    signal_process_segv env (enterCase SIGSEGV p)
  else if p.linuxthread_signal_number = SIGINT then
    let p := enterCase SIGINT p
    let p := emit (.g_print "Audacious has received SIGINT and is shutting down.\n") p
    emit .mainwin_quit_cb p
  else if p.linuxthread_signal_number = SIGTERM then
    let p := enterCase SIGTERM p
    let p := emit (.g_print "Audacious has received SIGTERM and is shutting down.\n") p
    emit .mainwin_quit_cb p
  else
    p

/-- What happens to the process in HandlerPoll mode: a signal is delivered to
`linuxthread_handler`, or the polling thread wakes and runs one pass. -/
inductive PollEvent where
  | signal (signal_number : Int)
  | wake
deriving DecidableEq, Repr

/-- HandlerPoll mode run over a sequence of deliveries and wake-ups; after
`abort ()` nothing more runs. -/
def handlerPoll (env : Env) : List PollEvent → Proc → Proc
  | [], p => p
  | .signal n :: rest, p =>
    if p.aborted then p else handlerPoll env rest (linuxthread_handler n p)
  | .wake :: rest, p =>
    if p.aborted then p else handlerPoll env rest (signal_process_signals_linuxthread_iter env p)

/-- The loop of `signal_process_signals_linuxthread` run for `n` passes with no
signal arriving. -/
def signal_process_signals_linuxthread (env : Env) (n : Nat) (p : Proc) : Proc :=
  handlerPoll env (List.replicate n .wake) p

/-! ## Installing handlers -/

/-- The signals held blocked while a handler installed for `signo` with
`action` runs (POSIX `sigaction`): those of `sa_mask`, and the delivered signal
itself unless `SA_NODEFER` is set; `SIGKILL` and `SIGSTOP` are never blocked,
the system drops them from the mask. -/
def blockedDuringHandler (signo : Int) (action : Sigaction) : sigset_t :=
  (if SaFlag.SA_NODEFER ∈ action.sa_flags then action.sa_mask
    else insert signo action.sa_mask).filter (fun s => isBlockable s)

/-- The outcome of `sigaction (signo, &action, &old_action)`: it fails with
`EINVAL` for a number that is not a signal and for `SIGKILL` and `SIGSTOP`;
for the other signals the platform decides. -/
def sigaction (env : Env) (signo : Int) : Option SignalHandler :=
  if isBlockable signo then env.sigaction_rc signo else none

/-- The disposition currently installed for `signo`, if this layer installed one. -/
def installedAction (p : Proc) (signo : Int) : Option Sigaction := p.actions.lookup signo

/-- `signal_install_handler_full`; the array `signals_to_block` with its length
`n_signals` is the list.  The result `none` is the C value `NULL`. -/
def signal_install_handler_full (env : Env) (signal_number : Int) (handler : SignalHandler)
    (signals_to_block : List Int) (p : Proc) : Option SignalHandler × Proc :=
  let action : Sigaction :=
    { sa_handler := handler,
      sa_flags := [SaFlag.SA_RESTART],
      sa_mask := signals_to_block.foldl sigaddset sigemptyset }
  match sigaction env signal_number with
  | none =>
    let p := emit (.sigaction signal_number action false) p
    let p := emit (.g_message "Failed to install handler for signal %d" [.int signal_number]) p
    (none, p)
  | some old_handler =>
    let p := emit (.sigaction signal_number action true) p
    (some old_handler, { p with actions := (signal_number, action) :: p.actions })

/-- `signal_install_handler`. -/
def signal_install_handler (env : Env) (signal_number : Int) (handler : SignalHandler)
    (p : Proc) : Option SignalHandler × Proc :=
  signal_install_handler_full env signal_number handler [] p

/-- The set `blockset` that `signal_initialize_blockers` builds. -/
def signal_initialize_blockers_blockset : sigset_t :=
  sigaddset (sigaddset (sigaddset (sigaddset sigemptyset SIGPIPE) SIGSEGV) SIGINT) SIGTERM

/-- `pthread_sigmask (SIG_BLOCK, &set, NULL)`: on success the signals of `set`
join the mask of the calling thread. -/
def pthread_sigmask_SIG_BLOCK (env : Env) (set : sigset_t) (p : Proc) : Proc :=
  let p := emit (.pthread_sigmask_SIG_BLOCK set env.pthread_sigmask_rc) p
  if env.pthread_sigmask_rc = 0 then { p with blocked := p.blocked ∪ set } else p

/-- `signal_initialize_blockers`. -/
def signal_initialize_blockers (env : Env) (p : Proc) : Proc :=
  let p := pthread_sigmask_SIG_BLOCK env signal_initialize_blockers_blockset p
  if env.pthread_sigmask_rc ≠ 0 then emit (.g_print "pthread_sigmask() failed.\n") p else p

/-- `strncasecmp ("linuxthreads", str, 12) == 0`. -/
def strncasecmp_linuxthreads (str : String) : Bool :=
  (str.toList.take 12).map Char.toLower = "linuxthreads".toList

/-- `signal_check_for_broken_impl`. -/
def signal_check_for_broken_impl (env : Env) : Bool :=
  match env.libpthread_version with
  | some str => if strncasecmp_linuxthreads str then true else false
  | none => false

/-- `g_thread_create (func, NULL, FALSE, NULL)`: the new thread inherits the
signal mask of its creator. -/
def g_thread_create (func : ThreadFunc) (p : Proc) : Proc :=
  let p := emit (.g_thread_create func) p
  { p with threads := p.threads ++ [(func, p.blocked)] }

/-- The notice `signal_handlers_init` prints when the platform probe reports a
broken implementation. -/
def broken_notice : String :=
  "Your signaling implementation is broken.\n" ++ "Expect unusable crash reports.\n"

/-- `signal_handlers_init`. -/
def signal_handlers_init (env : Env) (p : Proc) : Proc :=
  if signal_check_for_broken_impl env ≠ true then
    let p := signal_initialize_blockers env p
    g_thread_create .signal_process_signals p
  else
    let p := emit (.g_printerr broken_notice []) p
    let p := (signal_install_handler env SIGPIPE .linuxthread_handler p).2
    let p := (signal_install_handler env SIGSEGV .linuxthread_handler p).2
    let p := (signal_install_handler env SIGINT .linuxthread_handler p).2
    let p := (signal_install_handler env SIGTERM .linuxthread_handler p).2
    g_thread_create .signal_process_signals_linuxthread p

/-! ## Reading a trace -/

/-- The calls that only wait (`sigwait`, `g_usleep`); every other call is an
externally visible action. -/
def Effect.isWait : Effect → Bool
  | .sigwait _ _ => true
  | .g_usleep _ => true
  | _ => false

/-- The externally visible actions of a trace. -/
def visible (t : List Effect) : List Effect := t.filter (fun e => !e.isWait)

/-- Whether a call is a line of the crash report on the diagnostic stream. -/
def Effect.isPrinterr : Effect → Bool
  | .g_printerr _ _ => true
  | _ => false

/-- Whether a call is a `sigaction`. -/
def Effect.isSigaction : Effect → Bool
  | .sigaction _ _ _ => true
  | _ => false

/-- The signal a `sigaction` call was made for. -/
def Effect.sigactionSigno : Effect → Option Int
  | .sigaction signo _ _ => some signo
  | _ => none

/-- The signal a "Failed to install handler" message names. -/
def Effect.failedInstall : Effect → Option Int
  | .g_message format [.int signo] =>
    if format = "Failed to install handler for signal %d" then some signo else none
  | _ => none

/-- The entry point a `g_thread_create` call starts. -/
def Effect.threadCreated : Effect → Option ThreadFunc
  | .g_thread_create func => some func
  | _ => none

/-- The action `signal_install_handler` hands to `sigaction`. -/
def plainAction (handler : SignalHandler) : Sigaction :=
  { sa_handler := handler, sa_flags := [SaFlag.SA_RESTART], sa_mask := sigemptyset }

/-- What one call of `signal_install_handler` adds to the trace: the
`sigaction` call, followed by the failure message when it failed. -/
def installTrace (env : Env) (signo : Int) (handler : SignalHandler) : List Effect :=
  match sigaction env signo with
  | none =>
    [.sigaction signo (plainAction handler) false,
     .g_message "Failed to install handler for signal %d" [.int signo]]
  | some _ => [.sigaction signo (plainAction handler) true]

/-- The number of line ends in a message. -/
def lineEnds (text : String) : Nat := text.toList.count (Char.ofNat 10)

/-- An environment to evaluate the definitions at: a glibc with NPTL, a build
with `execinfo.h`, every system call succeeding. -/
def Env.nptl : Env :=
  { VERSION := "1.3.0", svn_stamp := "r4242", HAVE_EXECINFO_H := true,
    frames := ["audacious(signal_process_segv+0x2a)", "audacious(signal_process_signals+0x71)"],
    libpthread_version := some "NPTL 2.5", pthread_sigmask_rc := 0,
    sigaction_rc := fun _ => some .SIG_DFL }

/-- An environment to evaluate the definitions at: LinuxThreads, a build without
`execinfo.h`, `sigaction` failing for `SIGSEGV` only. -/
def Env.linuxthreads : Env :=
  { VERSION := "1.3.0", svn_stamp := "r4242", HAVE_EXECINFO_H := false,
    frames := [],
    libpthread_version := some "linuxthreads-0.10", pthread_sigmask_rc := 0,
    sigaction_rc := fun s => if s = SIGSEGV then none else some .SIG_DFL }


/-! ## `QueuedFunc` -/

/-- The kind of schedule a handle can hold (specification, section 3). -/
inductive Mode where
  | OneShot
  | Delayed (delay_ms : Int)
  | Periodic (interval_ms : Int)
deriving DecidableEq, Repr

/-- A source registered with the main loop: the handle that owns it, its mode,
and the work item (named by a number). -/
structure Source where
  handle : Nat
  mode : Mode
  work : Nat
deriving DecidableEq, Repr

/-- Modelled from the spec: the state behind `QueuedFunc`, whose implementation
(`mainloop.cc`) is not among the sources; `mainloop.h` only declares the class.
The main loop keeps a registry of scheduled sources, and every handle has the
member `_running` that the header declares. -/
structure MainLoop where
  sources : List Source
  _running : Nat → Bool

/-- Modelled from the spec: the state before any call; every handle is created
inert (section 3) and the header initialises `_running` to `false`. -/
def MainLoop.empty : MainLoop := { sources := [], _running := fun _ => false }

/-- The scheduled units of work pending for handle `h`. -/
def MainLoop.pending (m : MainLoop) (h : Nat) : List Source :=
  m.sources.filter (fun s => s.handle = h)

/-- Modelled from the spec: `QueuedFunc::stop` of the missing `mainloop.cc`,
"cancels any pending/periodic schedule on this handle" (section 4.5). -/
def QueuedFunc.stop (h : Nat) (m : MainLoop) : MainLoop :=
  { sources := m.sources.filter (fun s => s.handle ≠ h),
    _running := fun k => if k = h then false else m._running k }

/-- Modelled from the spec: `QueuedFunc::queue (func)` of the missing
`mainloop.cc`, "cancel any existing schedule on this handle, then request the
work run exactly once" (section 4.5). -/
def QueuedFunc.queue (h : Nat) (work : Nat) (m : MainLoop) : MainLoop :=
  let m := QueuedFunc.stop h m
  { m with sources := m.sources ++ [{ handle := h, mode := .OneShot, work := work }] }

/-- Modelled from the spec: `QueuedFunc::queue (delay_ms, func)` of the missing
`mainloop.cc`, "as above, but the work runs no earlier than `delay` has
elapsed" (section 4.5). -/
def QueuedFunc.queue_delayed (h : Nat) (delay_ms : Int) (work : Nat) (m : MainLoop) : MainLoop :=
  let m := QueuedFunc.stop h m
  { m with sources := m.sources ++ [{ handle := h, mode := .Delayed delay_ms, work := work }] }

/-- Modelled from the spec: `QueuedFunc::start (interval_ms, func)` of the
missing `mainloop.cc`, "cancel any existing schedule, then invoke `work`
repeatedly every `interval`" (section 4.5); `running ()` then reports the
periodic timer. -/
def QueuedFunc.start (h : Nat) (interval_ms : Int) (work : Nat) (m : MainLoop) : MainLoop :=
  let m := QueuedFunc.stop h m
  { sources := m.sources ++ [{ handle := h, mode := .Periodic interval_ms, work := work }],
    _running := fun k => if k = h then true else m._running k }

/-- `QueuedFunc::running` of `mainloop.h`: `return _running;`. -/
def QueuedFunc.running (h : Nat) (m : MainLoop) : Bool := m._running h

/-- A call of the public interface of one handle. -/
inductive Call where
  | queue (work : Nat)
  | queue_delayed (delay_ms : Int) (work : Nat)
  | start (interval_ms : Int) (work : Nat)
  | stop
deriving DecidableEq, Repr

/-- Performs one call on handle `h`. -/
def Call.perform (h : Nat) : Call → MainLoop → MainLoop
  | .queue work, m => QueuedFunc.queue h work m
  | .queue_delayed delay_ms work, m => QueuedFunc.queue_delayed h delay_ms work m
  | .start interval_ms work, m => QueuedFunc.start h interval_ms work m
  | .stop, m => QueuedFunc.stop h m

/-- The schedule a call installs on handle `h`: none for `stop`. -/
def Call.installs (h : Nat) : Call → List Source
  | .queue work => [{ handle := h, mode := .OneShot, work := work }]
  | .queue_delayed delay_ms work => [{ handle := h, mode := .Delayed delay_ms, work := work }]
  | .start interval_ms work => [{ handle := h, mode := .Periodic interval_ms, work := work }]
  | .stop => []

/-- Performs a sequence of calls, each on the handle it names, in order. -/
def performAll : List (Nat × Call) → MainLoop → MainLoop
  | [], m => m
  | (h, c) :: rest, m => performAll rest (c.perform h m)


/-! ## Lemmas on traces -/

theorem delta_of_out {p q : Proc} {d : List Effect} (h : q.out = p.out ++ d) : delta p q = d := by
  simp [delta, h]

theorem segv_out (env : Env) (p : Proc) :
    (signal_process_segv env p).out =
      p.out ++ ([Effect.g_printerr segv_apology [], segv_version env] ++ segv_stack env ++
        [Effect.g_printerr segv_pointer [],
         Effect.g_critical "Received SIGSEGV -- Audacious has crashed.",
         Effect.bmp_config_save, Effect.abort]) := by
  simp [signal_process_segv, emit]

theorem segv_stack_printerr (env : Env) : ∀ e ∈ segv_stack env, e.isPrinterr = true := by
  intro e he
  unfold segv_stack at he
  split at he
  · simp only [List.mem_cons, List.mem_map] at he
    rcases he with rfl | ⟨f, _, rfl⟩ <;> rfl
  · simp only [List.mem_singleton] at he
    subst he
    rfl

theorem signal_process_signals_aborted (env : Env) (sigs : List Int) (p : Proc)
    (h : p.aborted = true) : signal_process_signals env sigs p = p := by
  cases sigs <;> simp [signal_process_signals, h]

theorem handlerPoll_aborted (env : Env) (evs : List PollEvent) (p : Proc)
    (h : p.aborted = true) : handlerPoll env evs p = p := by
  cases evs with
  | nil => rfl
  | cons e rest => cases e <;> simp [handlerPoll, h]

/-! ## Lemmas on one pass of each loop -/

theorem wait_iter_SIGPIPE (env : Env) (p : Proc) :
    signal_process_signals_iter env SIGPIPE p =
      { p with out := p.out ++ [Effect.sigwait signal_process_signals_waitset SIGPIPE],
               dispatched := p.dispatched ++ [SIGPIPE] } := by
  simp [signal_process_signals_iter, emit, enterCase]

theorem wait_iter_SIGSEGV (env : Env) (p : Proc) :
    signal_process_signals_iter env SIGSEGV p =
      signal_process_segv env
        { p with out := p.out ++ [Effect.sigwait signal_process_signals_waitset SIGSEGV],
                 dispatched := p.dispatched ++ [SIGSEGV] } := by
  simp [signal_process_signals_iter, emit, enterCase, SIGSEGV, SIGPIPE]

theorem wait_iter_SIGINT (env : Env) (p : Proc) :
    signal_process_signals_iter env SIGINT p =
      { p with out := p.out ++ [Effect.sigwait signal_process_signals_waitset SIGINT,
                          Effect.g_print "Audacious has received SIGINT and is shutting down.\n",
                          Effect.mainwin_quit_cb],
               dispatched := p.dispatched ++ [SIGINT] } := by
  simp [signal_process_signals_iter, emit, enterCase, SIGSEGV, SIGPIPE, SIGINT]

theorem wait_iter_SIGTERM (env : Env) (p : Proc) :
    signal_process_signals_iter env SIGTERM p =
      { p with out := p.out ++ [Effect.sigwait signal_process_signals_waitset SIGTERM,
                          Effect.g_print "Audacious has received SIGTERM and is shutting down.\n",
                          Effect.mainwin_quit_cb],
               dispatched := p.dispatched ++ [SIGTERM] } := by
  simp [signal_process_signals_iter, emit, enterCase, SIGSEGV, SIGPIPE, SIGINT, SIGTERM]

theorem poll_iter_SIGPIPE (env : Env) (p : Proc) (h : p.linuxthread_signal_number = SIGPIPE) :
    signal_process_signals_linuxthread_iter env p =
      { p with out := p.out ++ [Effect.g_usleep 1000000],
               dispatched := p.dispatched ++ [SIGPIPE],
               linuxthread_signal_number := 0 } := by
  simp [signal_process_signals_linuxthread_iter, emit, enterCase, h]

theorem poll_iter_SIGSEGV (env : Env) (p : Proc) (h : p.linuxthread_signal_number = SIGSEGV) :
    signal_process_signals_linuxthread_iter env p =
      signal_process_segv env
        { p with out := p.out ++ [Effect.g_usleep 1000000],
                 dispatched := p.dispatched ++ [SIGSEGV] } := by
  simp [signal_process_signals_linuxthread_iter, emit, enterCase, h, SIGSEGV, SIGPIPE]

theorem poll_iter_SIGINT (env : Env) (p : Proc) (h : p.linuxthread_signal_number = SIGINT) :
    signal_process_signals_linuxthread_iter env p =
      { p with out := p.out ++ [Effect.g_usleep 1000000,
                          Effect.g_print "Audacious has received SIGINT and is shutting down.\n",
                          Effect.mainwin_quit_cb],
               dispatched := p.dispatched ++ [SIGINT] } := by
  simp [signal_process_signals_linuxthread_iter, emit, enterCase, h, SIGSEGV, SIGPIPE, SIGINT]

theorem poll_iter_SIGTERM (env : Env) (p : Proc) (h : p.linuxthread_signal_number = SIGTERM) :
    signal_process_signals_linuxthread_iter env p =
      { p with out := p.out ++ [Effect.g_usleep 1000000,
                          Effect.g_print "Audacious has received SIGTERM and is shutting down.\n",
                          Effect.mainwin_quit_cb],
               dispatched := p.dispatched ++ [SIGTERM] } := by
  simp [signal_process_signals_linuxthread_iter, emit, enterCase, h, SIGSEGV, SIGPIPE, SIGINT,
    SIGTERM]

theorem poll_iter_zero (env : Env) (p : Proc) (h : p.linuxthread_signal_number = 0) :
    signal_process_signals_linuxthread_iter env p =
      { p with out := p.out ++ [Effect.g_usleep 1000000] } := by
  simp [signal_process_signals_linuxthread_iter, emit, h, SIGSEGV, SIGPIPE, SIGINT, SIGTERM]

/-! ## Lemmas on runs of the polling loop -/

theorem mem_foldl_sigaddset (l : List Int) : ∀ (init : sigset_t) (s : Int),
    s ∈ l.foldl sigaddset init ↔ s ∈ init ∨ (s ∈ l ∧ isSignalNumber s = true) := by
  induction l with
  | nil => intro init s; simp
  | cons x xs ih =>
    intro init s
    rw [List.foldl_cons, ih]
    unfold sigaddset
    by_cases hx : isSignalNumber x = true
    · simp only [hx, if_true, Finset.mem_insert, List.mem_cons]
      constructor
      · rintro ((rfl | h) | ⟨h, hv⟩)
        · exact Or.inr ⟨Or.inl rfl, hx⟩
        · exact Or.inl h
        · exact Or.inr ⟨Or.inr h, hv⟩
      · rintro (h | ⟨rfl | h, hv⟩)
        · exact Or.inl (Or.inr h)
        · exact Or.inl (Or.inl rfl)
        · exact Or.inr ⟨h, hv⟩
    · simp only [hx, List.mem_cons]
      constructor
      · rintro (h | ⟨h, hv⟩)
        · exact Or.inl h
        · exact Or.inr ⟨Or.inr h, hv⟩
      · rintro (h | ⟨rfl | h, hv⟩)
        · exact Or.inl h
        · exact absurd hv hx
        · exact Or.inr ⟨h, hv⟩

theorem mem_blockedDuringHandler_restart (signo s : Int) (handler : SignalHandler)
    (mask : sigset_t) :
    s ∈ blockedDuringHandler signo
        { sa_handler := handler, sa_flags := [SaFlag.SA_RESTART], sa_mask := mask } ↔
      (s = signo ∨ s ∈ mask) ∧ isBlockable s = true := by
  simp [blockedDuringHandler]

theorem isSignalNumber_of_isBlockable {s : Int} (h : isBlockable s = true) :
    isSignalNumber s = true := by
  unfold isBlockable at h
  simp only [Bool.and_eq_true] at h
  exact h.1

theorem isBlockable_of_sigaction {env : Env} {signo : Int} {old : SignalHandler}
    (h : sigaction env signo = some old) : isBlockable signo = true := by
  unfold sigaction at h
  by_cases hb : isBlockable signo = true
  · exact hb
  · simp [hb] at h

theorem sigaction_interest (env : Env) :
    sigaction env SIGPIPE = env.sigaction_rc SIGPIPE
    ∧ sigaction env SIGSEGV = env.sigaction_rc SIGSEGV
    ∧ sigaction env SIGINT = env.sigaction_rc SIGINT
    ∧ sigaction env SIGTERM = env.sigaction_rc SIGTERM := by
  have h1 : isBlockable SIGPIPE = true := by decide
  have h2 : isBlockable SIGSEGV = true := by decide
  have h3 : isBlockable SIGINT = true := by decide
  have h4 : isBlockable SIGTERM = true := by decide
  simp [sigaction, h1, h2, h3, h4]

theorem pending_stop_self (h : Nat) (m : MainLoop) : (QueuedFunc.stop h m).pending h = [] := by
  simp [QueuedFunc.stop, MainLoop.pending, List.filter_filter]

theorem pending_stop_other (h k : Nat) (hk : k ≠ h) (m : MainLoop) :
    (QueuedFunc.stop h m).pending k = m.pending k := by
  simp only [QueuedFunc.stop, MainLoop.pending, List.filter_filter]
  congr 1
  funext s
  by_cases e : s.handle = k <;> simp [e, hk]

theorem pending_perform_self (h : Nat) (c : Call) (m : MainLoop) :
    (c.perform h m).pending h = c.installs h := by
  have hs := pending_stop_self h m
  simp only [MainLoop.pending] at hs
  cases c <;>
    simp [Call.perform, Call.installs, QueuedFunc.queue, QueuedFunc.queue_delayed,
      QueuedFunc.start, MainLoop.pending, List.filter_append, hs]

theorem pending_perform_other (h k : Nat) (hk : k ≠ h) (c : Call) (m : MainLoop) :
    (c.perform h m).pending k = m.pending k := by
  have hs := pending_stop_other h k hk m
  simp only [MainLoop.pending] at hs
  have hk2 : ¬ h = k := fun e => hk e.symm
  cases c <;>
    simp [Call.perform, QueuedFunc.queue, QueuedFunc.queue_delayed,
      QueuedFunc.start, MainLoop.pending, List.filter_append, hs, hk2]

theorem installs_length (h : Nat) (c : Call) : (c.installs h).length ≤ 1 := by
  cases c <;> simp [Call.installs]

theorem performAll_invariant : ∀ (calls : List (Nat × Call)) (m : MainLoop),
    (∀ k, (m.pending k).length ≤ 1) → ∀ k, ((performAll calls m).pending k).length ≤ 1 := by
  intro calls
  induction calls with
  | nil => intro m hm k; exact hm k
  | cons hc rest ih =>
    intro m hm k
    obtain ⟨h, c⟩ := hc
    apply ih
    intro j
    by_cases e : j = h
    · subst e
      rw [pending_perform_self]
      exact installs_length j c
    · rw [pending_perform_other h j e]
      exact hm j

/-! ## Lemmas on `signal_install_handler` -/

theorem install_out (env : Env) (signo : Int) (handler : SignalHandler) (p : Proc) :
    (signal_install_handler env signo handler p).2.out = p.out ++ installTrace env signo handler := by
  unfold signal_install_handler signal_install_handler_full installTrace
  cases sigaction env signo <;> simp [emit, plainAction]

theorem install_aborted (env : Env) (signo : Int) (handler : SignalHandler) (p : Proc) :
    (signal_install_handler env signo handler p).2.aborted = p.aborted := by
  unfold signal_install_handler signal_install_handler_full
  cases sigaction env signo <;> simp [emit]

theorem installTrace_sigactionSigno (env : Env) (signo : Int) (handler : SignalHandler) :
    (installTrace env signo handler).filterMap Effect.sigactionSigno = [signo] := by
  unfold installTrace
  cases sigaction env signo <;> simp [Effect.sigactionSigno]

theorem installTrace_failedInstall (env : Env) (signo : Int) (handler : SignalHandler) :
    (installTrace env signo handler).filterMap Effect.failedInstall
      = [signo].filter (fun s => (sigaction env s).isNone) := by
  unfold installTrace
  cases h : sigaction env signo <;> simp [Effect.failedInstall, h]

theorem installTrace_threadCreated (env : Env) (signo : Int) (handler : SignalHandler) :
    (installTrace env signo handler).filterMap Effect.threadCreated = [] := by
  unfold installTrace
  cases sigaction env signo <;> simp [Effect.threadCreated]

theorem installTrace_no_abort (env : Env) (signo : Int) (handler : SignalHandler) :
    Effect.abort ∉ installTrace env signo handler := by
  unfold installTrace
  cases sigaction env signo <;> simp

theorem init_out_wait (env : Env) (p : Proc) (hprobe : signal_check_for_broken_impl env = false) :
    (signal_handlers_init env p).out = p.out ++
      ([Effect.pthread_sigmask_SIG_BLOCK signal_initialize_blockers_blockset
          env.pthread_sigmask_rc] ++
        (if env.pthread_sigmask_rc = 0 then []
          else [Effect.g_print "pthread_sigmask() failed.\n"]) ++
        [Effect.g_thread_create ThreadFunc.signal_process_signals]) := by
  by_cases hrc : env.pthread_sigmask_rc = 0 <;>
    simp [signal_handlers_init, hprobe, signal_initialize_blockers, pthread_sigmask_SIG_BLOCK,
      g_thread_create, emit, hrc]

theorem init_out_poll (env : Env) (p : Proc) (hprobe : signal_check_for_broken_impl env = true) :
    (signal_handlers_init env p).out = p.out ++
      ([Effect.g_printerr broken_notice []] ++
        installTrace env SIGPIPE SignalHandler.linuxthread_handler ++
        installTrace env SIGSEGV SignalHandler.linuxthread_handler ++
        installTrace env SIGINT SignalHandler.linuxthread_handler ++
        installTrace env SIGTERM SignalHandler.linuxthread_handler ++
        [Effect.g_thread_create ThreadFunc.signal_process_signals_linuxthread]) := by
  simp [signal_handlers_init, hprobe, g_thread_create, emit, install_out]

theorem init_aborted (env : Env) (p : Proc) : (signal_handlers_init env p).aborted = p.aborted := by
  by_cases hprobe : signal_check_for_broken_impl env = true
  · simp [signal_handlers_init, hprobe, g_thread_create, emit, install_aborted]
  · by_cases hrc : env.pthread_sigmask_rc = 0 <;>
      simp [signal_handlers_init, hprobe, signal_initialize_blockers, pthread_sigmask_SIG_BLOCK,
        g_thread_create, emit, hrc]

/-! ## Theorems -/

/-- C2: every run of `signal_process_segv` adds to the trace, in this order, the
apology, the version and build line, a stack section (the line saying the
stacktrace was unavailable, or a header and a listing of at most twenty
frames, all of it on the diagnostic stream), the report-filing pointer, the
critical log entry, one `bmp_config_save`, and `abort`; the process is then
terminated, and neither signal loop does anything more after it. -/
theorem C2_fault_report_sequence (env : Env) (p : Proc) :
    ∃ stack : List Effect,
      (signal_process_segv env p).out =
        p.out ++ [Effect.g_printerr segv_apology [], segv_version env] ++ stack ++
          [Effect.g_printerr segv_pointer [],
           Effect.g_critical "Received SIGSEGV -- Audacious has crashed.",
           Effect.bmp_config_save, Effect.abort]
      ∧ (stack = [Effect.g_printerr "Stacktrace was unavailable.\n" []]
          ∨ ∃ strings : List String, strings.length ≤ 20 ∧
              stack = Effect.g_printerr "Stacktrace (%zd frames):\n" [Arg.int strings.length] ::
                strings.enum.map
                  (fun f => Effect.g_printerr "   %ld. %s\n" [Arg.int ((f.1 : Int) + 1), Arg.str f.2]))
      ∧ (∀ e ∈ stack, e.isPrinterr = true)
      ∧ (signal_process_segv env p).aborted = true
      ∧ (∀ sigs, signal_process_signals env sigs (signal_process_segv env p)
            = signal_process_segv env p)
      ∧ (∀ evs, handlerPoll env evs (signal_process_segv env p) = signal_process_segv env p) := by
  refine ⟨segv_stack env, ?_, ?_, segv_stack_printerr env, rfl, ?_, ?_⟩
  · simp [segv_out]
  · unfold segv_stack
    by_cases h : env.HAVE_EXECINFO_H = true
    · right
      refine ⟨backtrace env, ?_, ?_⟩
      · simp [backtrace]
      · simp [h]
    · left
      simp [h]
  · intro sigs
    exact signal_process_signals_aborted env sigs _ rfl
  · intro evs
    exact handlerPoll_aborted env evs _ rfl

/-- C1: in ThreadWait mode, a pass of `signal_process_signals` in which `sigwait`
delivers `SIGINT` (or `SIGTERM`) adds to the trace, after the `sigwait` itself,
exactly the one-line shutdown notice naming that signal and then one call of
`mainwin_quit_cb`; only the `case` of that signal is entered (so the fault
reporter is not), the process is not aborted, and the loop goes on with the
next `sigwait`. -/
theorem C1_interrupt_terminate_dispatch (env : Env) (rest : List Int) (p : Proc)
    (hp : p.aborted = false) :
    ((signal_process_signals_iter env SIGINT p).out =
        p.out ++ [Effect.sigwait signal_process_signals_waitset SIGINT,
                  Effect.g_print "Audacious has received SIGINT and is shutting down.\n",
                  Effect.mainwin_quit_cb]
      ∧ lineEnds "Audacious has received SIGINT and is shutting down.\n" = 1
      ∧ (signal_process_signals_iter env SIGINT p).dispatched = p.dispatched ++ [SIGINT]
      ∧ (signal_process_signals_iter env SIGINT p).aborted = false
      ∧ signal_process_signals env (SIGINT :: rest) p =
          signal_process_signals env rest (signal_process_signals_iter env SIGINT p))
    ∧ ((signal_process_signals_iter env SIGTERM p).out =
        p.out ++ [Effect.sigwait signal_process_signals_waitset SIGTERM,
                  Effect.g_print "Audacious has received SIGTERM and is shutting down.\n",
                  Effect.mainwin_quit_cb]
      ∧ lineEnds "Audacious has received SIGTERM and is shutting down.\n" = 1
      ∧ (signal_process_signals_iter env SIGTERM p).dispatched = p.dispatched ++ [SIGTERM]
      ∧ (signal_process_signals_iter env SIGTERM p).aborted = false
      ∧ signal_process_signals env (SIGTERM :: rest) p =
          signal_process_signals env rest (signal_process_signals_iter env SIGTERM p)) := by
  refine ⟨⟨?_, by decide, ?_, ?_, ?_⟩, ⟨?_, by decide, ?_, ?_, ?_⟩⟩
  · rw [wait_iter_SIGINT]
  · rw [wait_iter_SIGINT]
  · rw [wait_iter_SIGINT]; exact hp
  · simp [signal_process_signals, hp]
  · rw [wait_iter_SIGTERM]
  · rw [wait_iter_SIGTERM]
  · rw [wait_iter_SIGTERM]; exact hp
  · simp [signal_process_signals, hp]

/-- C1, at the process as it starts: the pass that receives `SIGINT` leaves it
running. -/
theorem C1_interrupt_terminate_dispatch_witness :
    Proc.initial.aborted = false
    ∧ (signal_process_signals_iter Env.nptl SIGINT Proc.initial).out =
        Proc.initial.out ++ [Effect.sigwait signal_process_signals_waitset SIGINT,
                  Effect.g_print "Audacious has received SIGINT and is shutting down.\n",
                  Effect.mainwin_quit_cb] :=
  ⟨rfl, (C1_interrupt_terminate_dispatch Env.nptl [] Proc.initial rfl).1.1⟩

/-- C10: a pass of either loop that dispatches `SIGPIPE` adds nothing to the
trace but its own wait (`sigwait`, or `g_usleep`): no output, no
`mainwin_quit_cb`, no crash report, no `abort`; only the `SIGPIPE` case is
entered, the process is not aborted, and the loop goes on with its next pass. -/
theorem C10_broken_pipe_ignored (env : Env) (rest : List Int) (evs : List PollEvent) (p : Proc)
    (hp : p.aborted = false) :
    (delta p (signal_process_signals_iter env SIGPIPE p)
        = [Effect.sigwait signal_process_signals_waitset SIGPIPE]
      ∧ visible (delta p (signal_process_signals_iter env SIGPIPE p)) = []
      ∧ (signal_process_signals_iter env SIGPIPE p).dispatched = p.dispatched ++ [SIGPIPE]
      ∧ (signal_process_signals_iter env SIGPIPE p).aborted = false
      ∧ signal_process_signals env (SIGPIPE :: rest) p =
          signal_process_signals env rest (signal_process_signals_iter env SIGPIPE p))
    ∧ (delta p (signal_process_signals_linuxthread_iter env (linuxthread_handler SIGPIPE p))
        = [Effect.g_usleep 1000000]
      ∧ visible (delta p
          (signal_process_signals_linuxthread_iter env (linuxthread_handler SIGPIPE p))) = []
      ∧ (signal_process_signals_linuxthread_iter env (linuxthread_handler SIGPIPE p)).dispatched
          = p.dispatched ++ [SIGPIPE]
      ∧ (signal_process_signals_linuxthread_iter env (linuxthread_handler SIGPIPE p)).aborted
          = false
      ∧ handlerPoll env (PollEvent.signal SIGPIPE :: PollEvent.wake :: evs) p =
          handlerPoll env evs
            (signal_process_signals_linuxthread_iter env (linuxthread_handler SIGPIPE p))) := by
  have h1 : delta p (signal_process_signals_iter env SIGPIPE p)
      = [Effect.sigwait signal_process_signals_waitset SIGPIPE] :=
    delta_of_out (by rw [wait_iter_SIGPIPE])
  have hs : (linuxthread_handler SIGPIPE p).linuxthread_signal_number = SIGPIPE := rfl
  have h2 : delta p (signal_process_signals_linuxthread_iter env (linuxthread_handler SIGPIPE p))
      = [Effect.g_usleep 1000000] :=
    delta_of_out (by rw [poll_iter_SIGPIPE env _ hs]; rfl)
  refine ⟨⟨h1, ?_, ?_, ?_, ?_⟩, ⟨h2, ?_, ?_, ?_, ?_⟩⟩
  · rw [h1]; rfl
  · rw [wait_iter_SIGPIPE]
  · rw [wait_iter_SIGPIPE]; exact hp
  · simp [signal_process_signals, hp]
  · rw [h2]; rfl
  · rw [poll_iter_SIGPIPE env _ hs]; rfl
  · rw [poll_iter_SIGPIPE env _ hs]; exact hp
  · have ha : (linuxthread_handler SIGPIPE p).aborted = false := hp
    simp [handlerPoll, hp, ha]

/-- C10, at the process as it starts: the polling pass that finds `SIGPIPE` adds
only its `g_usleep`. -/
theorem C10_broken_pipe_ignored_witness :
    Proc.initial.aborted = false
    ∧ delta Proc.initial
        (signal_process_signals_linuxthread_iter Env.linuxthreads
          (linuxthread_handler SIGPIPE Proc.initial)) = [Effect.g_usleep 1000000] :=
  ⟨rfl, (C10_broken_pipe_ignored Env.linuxthreads [] [] Proc.initial rfl).2.1⟩

/-- C9: for every signal of the Signal Interest Set, the externally visible
actions (notice, `mainwin_quit_cb`, crash report, `bmp_config_save`, `abort`)
of one pass of `signal_process_signals_linuxthread` that finds the signal in
`linuxthread_signal_number` are, in the same order, those of one pass of
`signal_process_signals` to which `sigwait` delivers it; and a polling pass
that finds `0` adds only its `g_usleep` and changes nothing else. -/
theorem C9_strategies_dispatch_identically (env : Env) (sig : Int) (p q r : Proc)
    (hsig : sig ∈ interestSet) (hslot : p.linuxthread_signal_number = sig)
    (hzero : r.linuxthread_signal_number = 0) :
    visible (delta p (signal_process_signals_linuxthread_iter env p))
      = visible (delta q (signal_process_signals_iter env sig q))
    ∧ visible (delta r (signal_process_signals_linuxthread_iter env r)) = []
    ∧ signal_process_signals_linuxthread_iter env r
        = { r with out := r.out ++ [Effect.g_usleep 1000000] } := by
  refine ⟨?_, ?_, poll_iter_zero env r hzero⟩
  · simp only [interestSet, Finset.mem_insert, Finset.mem_singleton] at hsig
    rcases hsig with h | h | h | h <;> subst h
    · rw [delta_of_out (by rw [poll_iter_SIGPIPE env p hslot]),
        delta_of_out (by rw [wait_iter_SIGPIPE])]
      rfl
    · rw [delta_of_out (by rw [poll_iter_SIGSEGV env p hslot, segv_out, List.append_assoc]),
        delta_of_out (by rw [wait_iter_SIGSEGV, segv_out, List.append_assoc])]
      simp [visible, Effect.isWait]
    · rw [delta_of_out (by rw [poll_iter_SIGINT env p hslot]),
        delta_of_out (by rw [wait_iter_SIGINT])]
      rfl
    · rw [delta_of_out (by rw [poll_iter_SIGTERM env p hslot]),
        delta_of_out (by rw [wait_iter_SIGTERM])]
      rfl
  · rw [delta_of_out (by rw [poll_iter_zero env r hzero])]
    rfl

/-- C9, at `SIGTERM` found in the slot of a process that has done nothing else. -/
theorem C9_strategies_dispatch_identically_witness :
    SIGTERM ∈ interestSet
    ∧ (linuxthread_handler SIGTERM Proc.initial).linuxthread_signal_number = SIGTERM
    ∧ Proc.initial.linuxthread_signal_number = 0
    ∧ visible (delta (linuxthread_handler SIGTERM Proc.initial)
        (signal_process_signals_linuxthread_iter Env.linuxthreads
          (linuxthread_handler SIGTERM Proc.initial)))
      = visible (delta Proc.initial
          (signal_process_signals_iter Env.linuxthreads SIGTERM Proc.initial)) :=
  ⟨by decide, rfl, rfl,
    (C9_strategies_dispatch_identically Env.linuxthreads SIGTERM
      (linuxthread_handler SIGTERM Proc.initial) Proc.initial Proc.initial
      (by decide) rfl rfl).1⟩

/-- C4 on the code: a polling pass that finds `SIGINT` (or `SIGTERM`) in
`linuxthread_signal_number` leaves it there, and the following pass, with no
new signal, prints the notice and calls `mainwin_quit_cb` again; only the
`SIGPIPE` case stores `0`.  Two passes after one `SIGINT`, from the process as
it starts, print the notice twice and call `mainwin_quit_cb` twice. -/
theorem C4_slot_kept_after_SIGINT_SIGTERM (env : Env) (p : Proc) :
    (signal_process_signals_linuxthread_iter env
        (linuxthread_handler SIGINT p)).linuxthread_signal_number = SIGINT
    ∧ SIGINT ≠ 0
    ∧ delta (signal_process_signals_linuxthread_iter env (linuxthread_handler SIGINT p))
        (signal_process_signals_linuxthread_iter env
          (signal_process_signals_linuxthread_iter env (linuxthread_handler SIGINT p)))
        = [Effect.g_usleep 1000000,
           Effect.g_print "Audacious has received SIGINT and is shutting down.\n",
           Effect.mainwin_quit_cb]
    ∧ (signal_process_signals_linuxthread_iter env
        (linuxthread_handler SIGTERM p)).linuxthread_signal_number = SIGTERM
    ∧ SIGTERM ≠ 0
    ∧ delta (signal_process_signals_linuxthread_iter env (linuxthread_handler SIGTERM p))
        (signal_process_signals_linuxthread_iter env
          (signal_process_signals_linuxthread_iter env (linuxthread_handler SIGTERM p)))
        = [Effect.g_usleep 1000000,
           Effect.g_print "Audacious has received SIGTERM and is shutting down.\n",
           Effect.mainwin_quit_cb]
    ∧ (signal_process_signals_linuxthread_iter env
        (linuxthread_handler SIGPIPE p)).linuxthread_signal_number = 0
    ∧ (signal_process_signals_linuxthread Env.linuxthreads 2
        (linuxthread_handler SIGINT Proc.initial)).out
        = [Effect.g_usleep 1000000,
           Effect.g_print "Audacious has received SIGINT and is shutting down.\n",
           Effect.mainwin_quit_cb,
           Effect.g_usleep 1000000,
           Effect.g_print "Audacious has received SIGINT and is shutting down.\n",
           Effect.mainwin_quit_cb] := by
  have hi : (linuxthread_handler SIGINT p).linuxthread_signal_number = SIGINT := rfl
  have ht : (linuxthread_handler SIGTERM p).linuxthread_signal_number = SIGTERM := rfl
  have hq : (linuxthread_handler SIGPIPE p).linuxthread_signal_number = SIGPIPE := rfl
  have hi2 : (signal_process_signals_linuxthread_iter env
      (linuxthread_handler SIGINT p)).linuxthread_signal_number = SIGINT := by
    rw [poll_iter_SIGINT env _ hi]; rfl
  have ht2 : (signal_process_signals_linuxthread_iter env
      (linuxthread_handler SIGTERM p)).linuxthread_signal_number = SIGTERM := by
    rw [poll_iter_SIGTERM env _ ht]; rfl
  refine ⟨hi2, by decide, ?_, ht2, by decide, ?_, ?_, by decide⟩
  · exact delta_of_out (by rw [poll_iter_SIGINT env _ hi2])
  · exact delta_of_out (by rw [poll_iter_SIGTERM env _ ht2])
  · rw [poll_iter_SIGPIPE env _ hq]

/-- C3: starting from a main loop with nothing scheduled, after every sequence
of `queue`, `start` and `stop` calls every handle has at most one scheduled
unit of work pending; and in any state, a call on handle `h` leaves pending
for `h` exactly what it installs (the new schedule for `queue` and `start`,
whatever was scheduled before being cancelled; nothing for `stop`), so at most
one, and leaves the schedules of the other handles as they were. -/
theorem C3_supersession (calls : List (Nat × Call)) (m : MainLoop) (h : Nat) (c : Call) :
    ((performAll calls MainLoop.empty).pending h).length ≤ 1
    ∧ (c.perform h m).pending h = c.installs h
    ∧ ((c.perform h m).pending h).length ≤ 1
    ∧ ((Call.stop).perform h m).pending h = []
    ∧ (∀ k, k ≠ h → (c.perform h m).pending k = m.pending k) := by
  refine ⟨?_, pending_perform_self h c m, ?_, ?_, ?_⟩
  · apply performAll_invariant
    intro k
    simp [MainLoop.empty, MainLoop.pending]
  · rw [pending_perform_self]
    exact installs_length h c
  · exact pending_stop_self h m
  · intro k hk
    exact pending_perform_other h k hk c m

/-- C6 as amended: when `sigaction` succeeds, the disposition that
`signal_install_handler_full` installs for `signal_number` carries the given
handler, and the set it holds blocked while the handler runs consists of
`signal_number` itself and of the members of `signals_to_block` that are
signal numbers other than `SIGKILL` and `SIGSTOP`, and of nothing else; for
`signal_install_handler`, which passes no further signals, that set is exactly
`signal_number`. -/
theorem C6_handler_blocks_blockable_signals (env : Env) (signal_number : Int)
    (handler : SignalHandler) (signals_to_block : List Int) (old_handler : SignalHandler)
    (p : Proc) (hok : sigaction env signal_number = some old_handler) :
    (∃ action : Sigaction,
      installedAction
          (signal_install_handler_full env signal_number handler signals_to_block p).2
          signal_number = some action
      ∧ (signal_install_handler_full env signal_number handler signals_to_block p).1
          = some old_handler
      ∧ action.sa_handler = handler
      ∧ signal_number ∈ blockedDuringHandler signal_number action
      ∧ (∀ s ∈ signals_to_block, isBlockable s = true →
          s ∈ blockedDuringHandler signal_number action)
      ∧ (∀ s, s ∈ blockedDuringHandler signal_number action ↔
          s = signal_number ∨ (s ∈ signals_to_block ∧ isBlockable s = true)))
    ∧ (∃ action : Sigaction,
      installedAction (signal_install_handler env signal_number handler p).2 signal_number
        = some action
      ∧ action.sa_handler = handler
      ∧ blockedDuringHandler signal_number action = {signal_number}) := by
  have hb : isBlockable signal_number = true := isBlockable_of_sigaction hok
  have hmem : ∀ s, s ∈ blockedDuringHandler signal_number
      { sa_handler := handler, sa_flags := [SaFlag.SA_RESTART],
        sa_mask := signals_to_block.foldl sigaddset sigemptyset } ↔
      s = signal_number ∨ (s ∈ signals_to_block ∧ isBlockable s = true) := by
    intro s
    rw [mem_blockedDuringHandler_restart, mem_foldl_sigaddset]
    simp only [sigemptyset, Finset.not_mem_empty, false_or]
    constructor
    · rintro ⟨h | ⟨h, _⟩, hs⟩
      · exact Or.inl h
      · exact Or.inr ⟨h, hs⟩
    · rintro (h | ⟨h, hs⟩)
      · subst h
        exact ⟨Or.inl rfl, hb⟩
      · exact ⟨Or.inr ⟨h, isSignalNumber_of_isBlockable hs⟩, hs⟩
  constructor
  · refine ⟨{ sa_handler := handler, sa_flags := [SaFlag.SA_RESTART],
              sa_mask := signals_to_block.foldl sigaddset sigemptyset }, ?_, ?_, rfl, ?_, ?_, hmem⟩
    · simp [signal_install_handler_full, hok, installedAction, emit, List.lookup]
    · simp [signal_install_handler_full, hok]
    · exact (hmem signal_number).mpr (Or.inl rfl)
    · intro s hs hbs
      exact (hmem s).mpr (Or.inr ⟨hs, hbs⟩)
  · refine ⟨{ sa_handler := handler, sa_flags := [SaFlag.SA_RESTART],
              sa_mask := sigemptyset }, ?_, rfl, ?_⟩
    · simp [signal_install_handler, signal_install_handler_full, hok, installedAction, emit,
        List.lookup]
    · ext s
      rw [mem_blockedDuringHandler_restart]
      simp only [sigemptyset, Finset.not_mem_empty, or_false, Finset.mem_singleton]
      constructor
      · rintro ⟨h, _⟩
        exact h
      · rintro h
        subst h
        exact ⟨rfl, hb⟩

/-- C6 as amended, at `SIGINT` installed with `SIGTERM` and `SIGKILL` to block,
on a platform where `sigaction` succeeds: `SIGTERM` is held blocked while the
handler runs. -/
theorem C6_handler_blocks_blockable_signals_witness :
    sigaction Env.nptl SIGINT = some SignalHandler.SIG_DFL
    ∧ SIGTERM ∈ [SIGTERM, SIGKILL] ∧ isBlockable SIGTERM = true
    ∧ ∃ action : Sigaction,
      installedAction (signal_install_handler Env.nptl SIGINT
        SignalHandler.linuxthread_handler Proc.initial).2 SIGINT = some action
      ∧ action.sa_handler = SignalHandler.linuxthread_handler
      ∧ blockedDuringHandler SIGINT action = {SIGINT} :=
  ⟨by decide, by decide, by decide,
    (C6_handler_blocks_blockable_signals Env.nptl SIGINT SignalHandler.linuxthread_handler
      [SIGTERM, SIGKILL] SignalHandler.SIG_DFL Proc.initial (by decide)).2⟩

/-- C6 as stated fails: `signal_install_handler_full` called for `SIGINT` with
`signals_to_block` holding `SIGKILL` and `0` succeeds, and the installed
disposition holds only `SIGINT` blocked while the handler runs, neither
`SIGKILL` (the system drops it from the mask) nor `0` (`sigaddset` refuses
it). -/
theorem C6_listed_SIGKILL_not_blocked :
    sigaction Env.nptl SIGINT = some SignalHandler.SIG_DFL
    ∧ SIGKILL ∈ [SIGKILL, 0]
    ∧ (installedAction
        (signal_install_handler_full Env.nptl SIGINT SignalHandler.linuxthread_handler
          [SIGKILL, 0] Proc.initial).2 SIGINT).map (blockedDuringHandler SIGINT)
        = some {SIGINT}
    ∧ SIGKILL ∉ ({SIGINT} : sigset_t)
    ∧ (0 : Int) ∉ ({SIGINT} : sigset_t) := by
  decide

/-- C7: when `signal_check_for_broken_impl` reports not-broken,
`signal_handlers_init` first asks `pthread_sigmask` to block exactly
`SIGPIPE`, `SIGSEGV`, `SIGINT` and `SIGTERM` (the same set
`signal_process_signals` waits on), then, after at most the failure warning,
creates the thread running `signal_process_signals`; it makes no `sigaction`
call and installs nothing; and when `pthread_sigmask` succeeds the mask of the
calling thread gains exactly that set and the new thread inherits it. -/
theorem C7_threadwait_blocks_interest_set (env : Env) (p : Proc)
    (hprobe : signal_check_for_broken_impl env = false) :
    signal_initialize_blockers_blockset = interestSet
    ∧ signal_initialize_blockers_blockset = signal_process_signals_waitset
    ∧ (∃ warning : List Effect,
        delta p (signal_handlers_init env p) =
          [Effect.pthread_sigmask_SIG_BLOCK interestSet env.pthread_sigmask_rc] ++ warning ++
            [Effect.g_thread_create ThreadFunc.signal_process_signals]
        ∧ ∀ e ∈ warning, e = Effect.g_print "pthread_sigmask() failed.\n")
    ∧ (∀ e ∈ delta p (signal_handlers_init env p), e.isSigaction = false)
    ∧ (signal_handlers_init env p).actions = p.actions
    ∧ (env.pthread_sigmask_rc = 0 →
        (signal_handlers_init env p).blocked = p.blocked ∪ interestSet
        ∧ (signal_handlers_init env p).threads =
            p.threads ++ [(ThreadFunc.signal_process_signals, p.blocked ∪ interestSet)]) := by
  have hset : signal_initialize_blockers_blockset = interestSet := by decide
  have hout : (signal_handlers_init env p).out = p.out ++
      ([Effect.pthread_sigmask_SIG_BLOCK interestSet env.pthread_sigmask_rc] ++
        (if env.pthread_sigmask_rc = 0 then []
          else [Effect.g_print "pthread_sigmask() failed.\n"]) ++
        [Effect.g_thread_create ThreadFunc.signal_process_signals]) := by
    by_cases hrc : env.pthread_sigmask_rc = 0 <;>
      simp [signal_handlers_init, hprobe, signal_initialize_blockers, pthread_sigmask_SIG_BLOCK,
        g_thread_create, emit, hrc, hset]
  refine ⟨hset, rfl, ⟨_, delta_of_out hout, ?_⟩, ?_, ?_, ?_⟩
  · intro e he
    split at he
    · simp at he
    · simpa using he
  · intro e he
    rw [delta_of_out hout] at he
    by_cases hrc : env.pthread_sigmask_rc = 0
    · simp [hrc] at he
      rcases he with rfl | rfl <;> rfl
    · simp [hrc] at he
      rcases he with rfl | rfl | rfl <;> rfl
  · by_cases hrc : env.pthread_sigmask_rc = 0 <;>
      simp [signal_handlers_init, hprobe, signal_initialize_blockers, pthread_sigmask_SIG_BLOCK,
        g_thread_create, emit, hrc]
  · intro hrc
    simp [signal_handlers_init, hprobe, signal_initialize_blockers, pthread_sigmask_SIG_BLOCK,
      g_thread_create, emit, hrc, hset]

/-- C7, on a glibc with NPTL where `pthread_sigmask` succeeds: the creating
thread ends with the four signals blocked. -/
theorem C7_threadwait_blocks_interest_set_witness :
    signal_check_for_broken_impl Env.nptl = false
    ∧ Env.nptl.pthread_sigmask_rc = 0
    ∧ (signal_handlers_init Env.nptl Proc.initial).blocked = Proc.initial.blocked ∪ interestSet :=
  ⟨by decide, rfl,
    ((C7_threadwait_blocks_interest_set Env.nptl Proc.initial (by decide)).2.2.2.2.2 rfl).1⟩

/-- C8: whatever `pthread_sigmask` and the four `sigaction` calls return,
`signal_handlers_init` does not abort and creates exactly one thread, as its
last step.  In ThreadWait mode it prints the warning exactly when
`pthread_sigmask` failed.  In HandlerPoll mode it calls `sigaction` for
`SIGPIPE`, `SIGSEGV`, `SIGINT` and `SIGTERM`, in this order and whatever the
earlier calls returned, and the "Failed to install handler" messages are, in
order, one for each call that failed.  `signal_install_handler_full` returns
`NULL` when `sigaction` fails, after the call and its message. -/
theorem C8_setup_failure_nonfatal (env : Env) (p : Proc) (signal_number : Int)
    (handler : SignalHandler) (signals_to_block : List Int) :
    (signal_check_for_broken_impl env = false →
      delta p (signal_handlers_init env p) =
        [Effect.pthread_sigmask_SIG_BLOCK signal_initialize_blockers_blockset
            env.pthread_sigmask_rc] ++
          (if env.pthread_sigmask_rc = 0 then []
            else [Effect.g_print "pthread_sigmask() failed.\n"]) ++
          [Effect.g_thread_create ThreadFunc.signal_process_signals])
    ∧ (signal_check_for_broken_impl env = true →
      (delta p (signal_handlers_init env p)).filterMap Effect.sigactionSigno
          = [SIGPIPE, SIGSEGV, SIGINT, SIGTERM]
      ∧ (delta p (signal_handlers_init env p)).filterMap Effect.failedInstall
          = [SIGPIPE, SIGSEGV, SIGINT, SIGTERM].filter (fun s => (env.sigaction_rc s).isNone)
      ∧ (delta p (signal_handlers_init env p)).getLast?
          = some (Effect.g_thread_create ThreadFunc.signal_process_signals_linuxthread))
    ∧ ((delta p (signal_handlers_init env p)).filterMap Effect.threadCreated).length = 1
    ∧ Effect.abort ∉ delta p (signal_handlers_init env p)
    ∧ (signal_handlers_init env p).aborted = p.aborted
    ∧ (env.sigaction_rc signal_number = none →
        (signal_install_handler_full env signal_number handler signals_to_block p).1 = none
        ∧ delta p (signal_install_handler_full env signal_number handler signals_to_block p).2 =
            [Effect.sigaction signal_number
               { sa_handler := handler, sa_flags := [SaFlag.SA_RESTART],
                 sa_mask := signals_to_block.foldl sigaddset sigemptyset } false,
             Effect.g_message "Failed to install handler for signal %d"
               [Arg.int signal_number]]) := by
  refine ⟨?_, ?_, ?_, ?_, init_aborted env p, ?_⟩
  · intro hprobe
    exact delta_of_out (init_out_wait env p hprobe)
  · intro hprobe
    rw [delta_of_out (init_out_poll env p hprobe)]
    refine ⟨?_, ?_, ?_⟩
    · simp [List.filterMap_append, installTrace_sigactionSigno, Effect.sigactionSigno]
    · obtain ⟨e1, e2, e3, e4⟩ := sigaction_interest env
      simp only [List.filterMap_append, installTrace_failedInstall]
      simp [Effect.failedInstall, List.filter_cons, e1, e2, e3, e4]
      rcases env.sigaction_rc SIGPIPE <;> rcases env.sigaction_rc SIGSEGV <;>
        rcases env.sigaction_rc SIGINT <;> rcases env.sigaction_rc SIGTERM <;> simp
    · exact List.getLast?_concat _
  · by_cases hprobe : signal_check_for_broken_impl env = true
    · rw [delta_of_out (init_out_poll env p hprobe)]
      simp [List.filterMap_append, installTrace_threadCreated, Effect.threadCreated]
    · have hprobe : signal_check_for_broken_impl env = false := by simpa using hprobe
      rw [delta_of_out (init_out_wait env p hprobe)]
      by_cases hrc : env.pthread_sigmask_rc = 0 <;> simp [hrc, Effect.threadCreated]
  · by_cases hprobe : signal_check_for_broken_impl env = true
    · rw [delta_of_out (init_out_poll env p hprobe)]
      simp [installTrace_no_abort]
    · have hprobe : signal_check_for_broken_impl env = false := by simpa using hprobe
      rw [delta_of_out (init_out_wait env p hprobe)]
      by_cases hrc : env.pthread_sigmask_rc = 0 <;> simp [hrc]
  · intro hfail
    constructor
    · simp [signal_install_handler_full, sigaction, hfail]
    · exact delta_of_out (by simp [signal_install_handler_full, sigaction, hfail, emit])

/-- C8, under LinuxThreads with `sigaction` failing for `SIGSEGV` only: all four
installations are attempted and one failure message names `SIGSEGV`. -/
theorem C8_setup_failure_nonfatal_witness :
    signal_check_for_broken_impl Env.linuxthreads = true
    ∧ (delta Proc.initial (signal_handlers_init Env.linuxthreads Proc.initial)).filterMap
        Effect.sigactionSigno = [SIGPIPE, SIGSEGV, SIGINT, SIGTERM]
    ∧ Env.linuxthreads.sigaction_rc SIGSEGV = none
    ∧ (signal_install_handler_full Env.linuxthreads SIGSEGV SignalHandler.linuxthread_handler []
        Proc.initial).1 = none :=
  ⟨by decide,
    ((C8_setup_failure_nonfatal Env.linuxthreads Proc.initial SIGSEGV
      SignalHandler.linuxthread_handler []).2.1 (by decide)).1,
    by decide,
    ((C8_setup_failure_nonfatal Env.linuxthreads Proc.initial SIGSEGV
      SignalHandler.linuxthread_handler []).2.2.2.2.2 (by decide)).1⟩

end Audacious
